import Mathlib

set_option autoImplicit false
set_option maxRecDepth 8192

/-!
Shallow embedding of the connection lifecycle and operation-routing core of the
salesforce-mcp-server repository, together with theorems settling the spec claims.

The remote platform is abstracted by oracles: every remote round-trip the code can
make (trial query, forced token refresh, full authentication, per-component deploy,
per-attempt job-status poll, remote describe) takes its outcome as an explicit
argument, and each embedded operation additionally reports which remote calls it
issued, so that claims about "no remote call is made" are about the model and not
about an informal reading.
-/

/-- Character-list containment: `pat` occurs contiguously in the scanned list. -/
def containsSubChars (pat : List Char) : List Char → Bool
  | [] => pat.isEmpty
  | c :: cs => pat.isPrefixOf (c :: cs) || containsSubChars pat cs

/-- Substring test, modelling the JavaScript `String.prototype.includes` used
throughout the source. -/
def containsSub (s pat : String) : Bool :=
  containsSubChars pat.toList s.toList

/-- `String.prototype.toUpperCase`, as a character map (the source only ever
upper-cases ASCII SOQL text). -/
def strToUpper (s : String) : String :=
  ⟨s.data.map Char.toUpper⟩

/-- `String.prototype.toLowerCase`, as a character map (the source only ever
lower-cases ASCII error text). -/
def strToLower (s : String) : String :=
  ⟨s.data.map Char.toLower⟩

/-! ## ConnectionManager (src/utils/connection.ts) -/

/-- A remote-platform failure as observed by the connection manager: jsforce errors
carry a message string, which is all `isOAuthError` inspects. -/
structure SfError where
  message : String
deriving Repr, DecidableEq

/-- The recognized stale/expired-token signatures
(src/utils/connection.ts, `oauthErrorPatterns`). -/
def oauthErrorPatterns : List String :=
  ["INVALID_SESSION_ID", "SESSION_NOT_FOUND", "invalid_grant",
   "expired access/refresh token", "authentication failure", "invalid_client"]

/-- `ConnectionManager.isOAuthError`: the lower-cased message contains one of the
recognized patterns (each lower-cased). -/
def isOAuthError (e : SfError) : Bool :=
  let errorMessage := strToLower e.message
  oauthErrorPatterns.any (fun p => containsSub errorMessage (strToLower p))

/-- The `ConnectionManager` static state: the cached Session (`instance`, a jsforce
Connection modelled by a Nat identity, absent when null) and `lastHealthCheck`,
the timestamp in milliseconds of the last successful validation. -/
structure ConnState where
  inst : Option Nat
  lastHealthCheck : Nat
deriving Repr, DecidableEq

/-- `HEALTH_CHECK_INTERVAL = 5 * 60 * 1000` milliseconds. -/
def HEALTH_CHECK_INTERVAL : Nat := 5 * 60 * 1000

/-- `ConnectionManager.needsHealthCheck`: `Date.now() - lastHealthCheck > interval`.
Nat truncated subtraction agrees with the JavaScript comparison: a clock reading
below the stored timestamp makes the JS difference negative, hence not above the
interval, and makes the Nat difference zero, likewise not above it. -/
def needsHealthCheck (s : ConnState) (now : Nat) : Bool :=
  HEALTH_CHECK_INTERVAL < now - s.lastHealthCheck

/-- Remote round-trips issued by one connection-manager call: trial queries
(`SELECT Id FROM Organization LIMIT 1`), forced token refreshes
(`oauth2.refreshToken`), and full authentications through the AuthManager. -/
structure ConnTrace where
  trials : Nat
  refreshes : Nat
  auths : Nat
deriving Repr, DecidableEq

/-- `ConnectionManager.testConnectionWithRetry`: run the trial query (outcome `t1`).
On failure with a recognized token signature, force one refresh (outcome `rf`) and,
if the refresh succeeded, retry the trial query once (outcome `t2`); a refresh or
retry failure is rethrown, as is a non-token failure. Returns the overall outcome
with the number of trial queries and of refreshes issued. -/
def testConnectionWithRetry (t1 rf t2 : Except SfError Unit) :
    Except SfError Unit × Nat × Nat :=
  match t1 with
  | .ok _ => (.ok (), 1, 0)
  | .error e =>
    if isOAuthError e then
      match rf with
      | .ok _ =>
        match t2 with
        | .ok _ => (.ok (), 2, 1)
        | .error e2 => (.error e2, 2, 1)
      | .error re => (.error re, 1, 1)
    else (.error e, 1, 0)

/-- `ConnectionManager.ensureHealthyConnection`: with a cached instance, test it;
on success update `lastHealthCheck` and return. On any test failure the catch block
nulls the instance and control falls through to a full authentication
(`authManager.authenticate()`, outcome oracle `authRes`), which installs a fresh
instance and timestamp on success and propagates its error (leaving no instance)
on failure. Without a cached instance it authenticates directly. Returns the new
state, the outcome, and the remote-call trace. -/
def ensureHealthyConnection (s : ConnState) (now : Nat)
    (t1 rf t2 : Except SfError Unit) (authRes : Except SfError Nat) :
    ConnState × Except SfError Unit × ConnTrace :=
  match s.inst with
  | some _ =>
    match testConnectionWithRetry t1 rf t2 with
    | (.ok _, trials, refreshes) =>
        ({ s with lastHealthCheck := now }, .ok (), ⟨trials, refreshes, 0⟩)
    | (.error _, trials, refreshes) =>
        match authRes with
        | .ok cNew => (⟨some cNew, now⟩, .ok (), ⟨trials, refreshes, 1⟩)
        | .error eA => (⟨none, s.lastHealthCheck⟩, .error eA, ⟨trials, refreshes, 1⟩)
  | none =>
    match authRes with
    | .ok cNew => (⟨some cNew, now⟩, .ok (), ⟨0, 0, 1⟩)
    | .error eA => (⟨none, s.lastHealthCheck⟩, .error eA, ⟨0, 0, 1⟩)

/-- `ConnectionManager.getConnection`: if no instance is cached or the health-check
interval has elapsed, run `ensureHealthyConnection`; then return `this.instance!`
(modelled by `Option.getD 0`; every success path has an instance). Otherwise return
the cached instance unchanged with no remote call. -/
def getConnection (s : ConnState) (now : Nat)
    (t1 rf t2 : Except SfError Unit) (authRes : Except SfError Nat) :
    ConnState × Except SfError Nat × ConnTrace :=
  if s.inst.isNone || needsHealthCheck s now then
    match ensureHealthyConnection s now t1 rf t2 authRes with
    | (s2, .ok _, tr) => (s2, .ok (s2.inst.getD 0), tr)
    | (s2, .error e, tr) => (s2, .error e, tr)
  else (s, .ok (s.inst.getD 0), ⟨0, 0, 0⟩)

/-- Claim C1: while a Session exists and the call time is within the 5-minute
health-check interval of the last successful validation, every `getConnection` call
returns the identical cached Session with zero trial round-trips, whatever the
remote oracles would answer — so two such calls both return the same instance and
issue no trial query; a call made after the interval has elapsed, whose trial query
succeeds, performs exactly one trial round-trip (no refresh, no re-authentication)
before returning that same Session with the timestamp updated. -/
theorem getConnection_health_interval
    (s : ConnState) (c : Nat) (hinst : s.inst = some c)
    (now1 now2 now3 : Nat)
    (h1 : ¬ HEALTH_CHECK_INTERVAL < now1 - s.lastHealthCheck)
    (h2 : ¬ HEALTH_CHECK_INTERVAL < now2 - s.lastHealthCheck)
    (h3 : HEALTH_CHECK_INTERVAL < now3 - s.lastHealthCheck) :
    (∀ t1 rf t2 authRes,
        getConnection s now1 t1 rf t2 authRes = (s, .ok c, ⟨0, 0, 0⟩)) ∧
    (∀ t1 rf t2 authRes,
        getConnection s now2 t1 rf t2 authRes = (s, .ok c, ⟨0, 0, 0⟩)) ∧
    (∀ rf t2 authRes,
        getConnection s now3 (.ok ()) rf t2 authRes =
          ({ s with lastHealthCheck := now3 }, .ok c, ⟨1, 0, 0⟩)) := by
  refine ⟨fun t1 rf t2 authRes => ?_, fun t1 rf t2 authRes => ?_,
    fun rf t2 authRes => ?_⟩
  · simp [getConnection, needsHealthCheck, hinst, h1]
  · simp [getConnection, needsHealthCheck, hinst, h2]
  · simp [getConnection, needsHealthCheck, ensureHealthyConnection,
      testConnectionWithRetry, hinst, h3]

/-- Claim C1 witness: a cached Session (id 7) validated at t=1000 ms is returned
unchanged, with no remote call, at t=301000 (boundary: exactly the interval) and at
t=1000; at t=301001 the interval has elapsed and a successful trial produces exactly
one trial round-trip. -/
theorem getConnection_health_interval_w :
    getConnection ⟨some 7, 1000⟩ 301000 (.ok ()) (.ok ()) (.ok ()) (.ok 99) =
      (⟨some 7, 1000⟩, .ok 7, ⟨0, 0, 0⟩) ∧
    getConnection ⟨some 7, 1000⟩ 1000 (.ok ()) (.ok ()) (.ok ()) (.ok 99) =
      (⟨some 7, 1000⟩, .ok 7, ⟨0, 0, 0⟩) ∧
    getConnection ⟨some 7, 1000⟩ 301001 (.ok ()) (.ok ()) (.ok ()) (.ok 99) =
      (⟨some 7, 301001⟩, .ok 7, ⟨1, 0, 0⟩) := by
  have h := getConnection_health_interval ⟨some 7, 1000⟩ 7 rfl 301000 1000 301001
    (by decide) (by decide) (by decide)
  exact ⟨h.1 _ _ _ _, h.2.1 _ _ _ _, h.2.2 _ _ _⟩

/-- Claim C2: for a failing health-check trial round-trip on a cached Session:
a recognized stale/expired-token failure triggers exactly one forced refresh, and
when the refresh succeeds exactly one retry of the trial query is issued; if that
retry also fails, the Session is discarded and exactly one full re-authentication
through the AuthManager is performed (the cache holds the fresh instance, or is
absent when re-authentication fails too); a failure that is not token-related
triggers no refresh and goes directly to discard plus one full re-authentication;
and no run of the health check ever issues more than one refresh. -/
theorem ensureHealthy_token_retry
    (s : ConnState) (c : Nat) (hinst : s.inst = some c)
    (now : Nat) (e : SfError) :
    (∀ rf t2 authRes, isOAuthError e = true →
        (ensureHealthyConnection s now (.error e) rf t2 authRes).2.2.refreshes = 1) ∧
    (∀ t2 authRes, isOAuthError e = true →
        (ensureHealthyConnection s now (.error e) (.ok ()) t2 authRes).2.2.trials = 2) ∧
    (∀ e2 cNew, isOAuthError e = true →
        ensureHealthyConnection s now (.error e) (.ok ()) (.error e2) (.ok cNew) =
          (⟨some cNew, now⟩, .ok (), ⟨2, 1, 1⟩)) ∧
    (∀ e2 eA, isOAuthError e = true →
        ensureHealthyConnection s now (.error e) (.ok ()) (.error e2) (.error eA) =
          (⟨none, s.lastHealthCheck⟩, .error eA, ⟨2, 1, 1⟩)) ∧
    (∀ rf t2 cNew, isOAuthError e = false →
        ensureHealthyConnection s now (.error e) rf t2 (.ok cNew) =
          (⟨some cNew, now⟩, .ok (), ⟨1, 0, 1⟩)) ∧
    (∀ t1 rf t2 authRes,
        (ensureHealthyConnection s now t1 rf t2 authRes).2.2.refreshes ≤ 1) := by
  refine ⟨fun rf t2 authRes hoauth => ?_, fun t2 authRes hoauth => ?_,
    fun e2 cNew hoauth => ?_, fun e2 eA hoauth => ?_,
    fun rf t2 cNew hoauth => ?_, fun t1 rf t2 authRes => ?_⟩
  · cases rf with
    | ok u =>
      cases t2 with
      | ok v => cases authRes <;>
          simp [ensureHealthyConnection, testConnectionWithRetry, hinst, hoauth]
      | error e2 => cases authRes <;>
          simp [ensureHealthyConnection, testConnectionWithRetry, hinst, hoauth]
    | error re => cases authRes <;>
        simp [ensureHealthyConnection, testConnectionWithRetry, hinst, hoauth]
  · cases t2 with
    | ok v => cases authRes <;>
        simp [ensureHealthyConnection, testConnectionWithRetry, hinst, hoauth]
    | error e2 => cases authRes <;>
        simp [ensureHealthyConnection, testConnectionWithRetry, hinst, hoauth]
  · simp [ensureHealthyConnection, testConnectionWithRetry, hinst, hoauth]
  · simp [ensureHealthyConnection, testConnectionWithRetry, hinst, hoauth]
  · cases rf with
    | ok u => cases t2 <;>
        simp [ensureHealthyConnection, testConnectionWithRetry, hinst, hoauth]
    | error re =>
        simp [ensureHealthyConnection, testConnectionWithRetry, hinst, hoauth]
  · cases hi : s.inst with
    | none => cases authRes <;> simp [ensureHealthyConnection, hi]
    | some c0 =>
      cases t1 with
      | ok u => simp [ensureHealthyConnection, testConnectionWithRetry, hi]
      | error e1 =>
        by_cases ho : isOAuthError e1
        · cases rf with
          | ok u => cases t2 <;> cases authRes <;>
              simp [ensureHealthyConnection, testConnectionWithRetry, hi, ho]
          | error re => cases authRes <;>
              simp [ensureHealthyConnection, testConnectionWithRetry, hi, ho]
        · cases authRes <;>
            simp [ensureHealthyConnection, testConnectionWithRetry, hi, ho]

/-! ## DataTools (src/tools/dataTools.ts) -/

/-- A record as passed to the data tools: an optional `Id` plus opaque field data. -/
structure SObjectRecord where
  id : Option String
  fieldsHash : Nat
deriving Repr, DecidableEq

/-- Tool input shape: the data tools accept a lone value or an array
(distinguished by `Array.isArray`). -/
inductive RecordInput (α : Type) where
  | single : α → RecordInput α
  | many : List α → RecordInput α
deriving Repr, DecidableEq

/-- `const records = isArray ? recordData : [recordData]`. -/
def RecordInput.toRecords {α : Type} : RecordInput α → List α
  | .single a => [a]
  | .many as => as

/-- `Array.isArray(recordData)`. -/
def RecordInput.isArray {α : Type} : RecordInput α → Bool
  | .single _ => false
  | .many _ => true

/-- JavaScript truthiness of `record.Id`: undefined, null and the empty string
are falsy; any other string is truthy. -/
def idTruthy (r : SObjectRecord) : Bool :=
  match r.id with
  | none => false
  | some s => !s.isEmpty

/-- The one remote DML call a data-tool invocation issues once routed. -/
inductive DmlCall where
  | createSingle (r : SObjectRecord)
  | createMulti (rs : List SObjectRecord)
  | bulkCreate (rs : List SObjectRecord)
  | updateSingle (r : SObjectRecord)
  | updateMulti (rs : List SObjectRecord)
  | bulkUpdate (rs : List SObjectRecord)
  | deleteSingle (i : String)
  | deleteMulti (ids : List String)
  | bulkDelete (ids : List String)
  | upsertSingle (extId : String) (r : SObjectRecord)
  | upsertMulti (extId : String) (rs : List SObjectRecord)
  | bulkUpsert (extId : String) (rs : List SObjectRecord)
deriving Repr, DecidableEq

/-- Whether the routed remote call is a bulk-job submission. -/
def DmlCall.isBulk : DmlCall → Bool
  | .bulkCreate _ | .bulkUpdate _ | .bulkDelete _ | .bulkUpsert _ _ => true
  | _ => false

/-- `DataTools.createRecord` routing: normalize, bulk when more than 200 records,
else the multi- or single-record standard call. -/
def createRecordOp (recordData : RecordInput SObjectRecord) : DmlCall :=
  let records := recordData.toRecords
  if 200 < records.length then .bulkCreate records
  else match recordData with
    | .many rs => .createMulti rs
    | .single r => .createSingle r

/-- The message of the error `DataTools.updateRecord` throws during Id validation. -/
def updateIdErrorMsg : String :=
  "All records must have an Id field for update operations"

/-- `DataTools.updateRecord` routing: normalize, throw on the first record whose
`Id` is falsy (before any DML call), then bulk when more than 200 records, else the
multi- or single-record standard call. -/
def updateRecordOp (recordData : RecordInput SObjectRecord) :
    Except String DmlCall :=
  let records := recordData.toRecords
  match records.find? (fun r => !idTruthy r) with
  | some _ => .error updateIdErrorMsg
  | none =>
    if 200 < records.length then .ok (.bulkUpdate records)
    else match recordData with
      | .many rs => .ok (.updateMulti rs)
      | .single r => .ok (.updateSingle r)

/-- `DataTools.deleteRecord` routing: normalize the id(s), bulk when more than 200,
else single-record `destroy(ids[0])` when exactly one id, else the multi-record
call. No identifier validation is performed. -/
def deleteRecordOp (recordIds : RecordInput String) : DmlCall :=
  let ids := recordIds.toRecords
  if 200 < ids.length then .bulkDelete ids
  else if ids.length == 1 then .deleteSingle (ids.headD "")
  else .deleteMulti ids

/-- `DataTools.upsertRecord` routing: normalize, bulk when more than 200 records,
else the multi- or single-record standard call. -/
def upsertRecordOp (externalIdField : String)
    (recordData : RecordInput SObjectRecord) : DmlCall :=
  let records := recordData.toRecords
  if 200 < records.length then .bulkUpsert externalIdField records
  else match recordData with
    | .many rs => .upsertMulti externalIdField rs
    | .single r => .upsertSingle externalIdField r

/-- Remote DML calls actually issued by a fallible operation: a local validation
throw happens before the DML call, so it issues none. -/
def dmlCallsOf (r : Except String DmlCall) : List DmlCall :=
  match r with
  | .error _ => []
  | .ok c => [c]

/-- Claim C3: every create/update/delete/upsert normalizes its input to an ordered
list (a lone object or single id becomes a one-element list), and the routed remote
call is the bulk-job path exactly when the normalized length strictly exceeds 200
(for update, whenever a call is routed at all); in particular exactly 200 items use
a standard path and 201 items the bulk path. -/
theorem dml_bulk_threshold :
    (∀ r : SObjectRecord, (RecordInput.single r).toRecords = [r]) ∧
    (∀ i : String, (RecordInput.single i).toRecords = [i]) ∧
    (∀ input : RecordInput SObjectRecord,
        (createRecordOp input).isBulk = decide (200 < input.toRecords.length)) ∧
    (∀ (input : RecordInput SObjectRecord) (c : DmlCall),
        updateRecordOp input = .ok c →
        c.isBulk = decide (200 < input.toRecords.length)) ∧
    (∀ input : RecordInput String,
        (deleteRecordOp input).isBulk = decide (200 < input.toRecords.length)) ∧
    (∀ (ext : String) (input : RecordInput SObjectRecord),
        (upsertRecordOp ext input).isBulk = decide (200 < input.toRecords.length)) ∧
    (∀ rs : List SObjectRecord, rs.length = 200 →
        (createRecordOp (.many rs)).isBulk = false) ∧
    (∀ rs : List SObjectRecord, rs.length = 201 →
        (createRecordOp (.many rs)).isBulk = true) := by
  have hcreate : ∀ input : RecordInput SObjectRecord,
      (createRecordOp input).isBulk = decide (200 < input.toRecords.length) := by
    intro input
    cases input with
    | single r => rfl
    | many rs =>
      by_cases h : 200 < rs.length <;>
        simp [createRecordOp, RecordInput.toRecords, DmlCall.isBulk, h]
  refine ⟨fun r => rfl, fun i => rfl, hcreate, ?_, ?_, ?_, ?_, ?_⟩
  · intro input c hc
    cases hf : input.toRecords.find? (fun r => !idTruthy r) with
    | some r0 =>
      simp only [updateRecordOp, hf] at hc
      exact Except.noConfusion hc
    | none =>
      simp only [updateRecordOp, hf] at hc
      by_cases h : 200 < input.toRecords.length
      · rw [if_pos h] at hc
        cases hc
        simp [DmlCall.isBulk, h]
      · rw [if_neg h] at hc
        cases input with
        | single r =>
          cases hc
          simp [DmlCall.isBulk, RecordInput.toRecords, h]
        | many rs =>
          cases hc
          simp only [RecordInput.toRecords] at h
          simp [DmlCall.isBulk, RecordInput.toRecords, h]
  · intro input
    cases input with
    | single i => rfl
    | many ids =>
      by_cases h : 200 < ids.length
      · simp [deleteRecordOp, RecordInput.toRecords, DmlCall.isBulk, h]
      · simp only [deleteRecordOp, RecordInput.toRecords, if_neg h]
        split <;> simp [DmlCall.isBulk, h]
  · intro ext input
    cases input with
    | single r => rfl
    | many rs =>
      by_cases h : 200 < rs.length <;>
        simp [upsertRecordOp, RecordInput.toRecords, DmlCall.isBulk, h]
  · intro rs h200
    rw [hcreate (.many rs)]
    simp [RecordInput.toRecords, h200]
  · intro rs h201
    rw [hcreate (.many rs)]
    simp [RecordInput.toRecords, h201]

/-- Claim C3 witness: 200 identical records route to a standard path, 201 route to
the bulk path, and a routed 201-record update call is the bulk-job path. -/
theorem dml_bulk_threshold_w :
    (createRecordOp (.many (List.replicate 200
      (⟨some "a", 0⟩ : SObjectRecord)))).isBulk = false ∧
    (createRecordOp (.many (List.replicate 201
      (⟨some "a", 0⟩ : SObjectRecord)))).isBulk = true ∧
    (DmlCall.bulkUpdate (List.replicate 201
      (⟨some "a", 0⟩ : SObjectRecord))).isBulk =
      decide (200 < (RecordInput.many (List.replicate 201
        (⟨some "a", 0⟩ : SObjectRecord))).toRecords.length) := by
  refine ⟨dml_bulk_threshold.2.2.2.2.2.2.1 _ (by simp),
    dml_bulk_threshold.2.2.2.2.2.2.2 _ (by simp),
    dml_bulk_threshold.2.2.2.1 _ _ ?_⟩
  rfl

/-- Claim C4 counterexample: the claim covers update AND delete, but
`DataTools.deleteRecord` performs no identifier validation at all — a delete whose
single input id is the empty string (an item lacking a valid record identifier) is
routed straight to the remote single-record delete call, with no validation error
of any kind raised. -/
theorem delete_no_validation_cex :
    deleteRecordOp (.single "") = .deleteSingle "" ∧
    dmlCallsOf (.ok (deleteRecordOp (.single ""))) = [.deleteSingle ""] := by
  exact ⟨rfl, rfl⟩

/-- Claim C4 (amended): for every update operation whose normalized input list
contains at least one item whose `Id` is not truthy, the operation throws the
validation error before its DML remote call, so the invocation issues zero DML
remote calls; delete operations perform no identifier validation. -/
theorem update_failfast_validation
    (input : RecordInput SObjectRecord)
    (h : ∃ r ∈ input.toRecords, idTruthy r = false) :
    updateRecordOp input = .error updateIdErrorMsg ∧
    dmlCallsOf (updateRecordOp input) = [] := by
  obtain ⟨r, hr, hid⟩ := h
  have hsome : (input.toRecords.find? (fun x => !idTruthy x)).isSome := by
    rw [List.find?_isSome]
    exact ⟨r, hr, by simp [hid]⟩
  cases hf : input.toRecords.find? (fun x => !idTruthy x) with
  | none => rw [hf] at hsome; simp at hsome
  | some r0 =>
    constructor
    · simp only [updateRecordOp, hf]
    · simp only [updateRecordOp, hf, dmlCallsOf]

/-- Claim C4 witness: an update of two records where the second lacks an `Id`
throws the validation error and issues zero DML remote calls. -/
theorem update_failfast_validation_w :
    updateRecordOp (.many [⟨some "003", 1⟩, ⟨none, 2⟩]) =
      .error updateIdErrorMsg ∧
    dmlCallsOf (updateRecordOp (.many [⟨some "003", 1⟩, ⟨none, 2⟩])) = [] := by
  exact update_failfast_validation (.many [⟨some "003", 1⟩, ⟨none, 2⟩])
    ⟨⟨none, 2⟩, by simp [RecordInput.toRecords], rfl⟩

/-! ## QueryTools (query tools module: `executeSoql`, `shouldUseBulkForQuery`) -/

/-- `parseInt` on a run of decimal digits. -/
def digitsToNat (ds : List Char) : Nat :=
  ds.foldl (fun acc c => acc * 10 + (c.toNat - Char.toNat '0')) 0

/-- Match the regular expression `LIMIT\s+(\d+)` at the head of the character
list: the literal LIMIT, then at least one whitespace character, then at least
one digit (taken greedily); yields the parsed number. -/
def matchLimitNumAt (cs : List Char) : Option Nat :=
  match cs with
  | 'L' :: 'I' :: 'M' :: 'I' :: 'T' :: rest =>
    let ws := rest.takeWhile Char.isWhitespace
    let afterWs := rest.dropWhile Char.isWhitespace
    if ws.isEmpty then none
    else
      let ds := afterWs.takeWhile Char.isDigit
      if ds.isEmpty then none else some (digitsToNat ds)
  | _ => none

/-- First match of `LIMIT\s+(\d+)` scanning left to right, as
`upperQuery.match(...)` returns the first occurrence. -/
def findLimitNum : List Char → Option Nat
  | [] => none
  | c :: cs =>
    match matchLimitNumAt (c :: cs) with
    | some n => some n
    | none => findLimitNum cs

/-- `QueryTools.BULK_THRESHOLD = 2000`. -/
def BULK_THRESHOLD : Nat := 2000

/-- `QueryTools.shouldUseBulkForQuery`: uppercase the query; if it does not
contain the substring LIMIT, use bulk; otherwise if `LIMIT\s+(\d+)` matches,
use bulk exactly when the parsed value exceeds the threshold; otherwise not. -/
def shouldUseBulkForQuery (query : String) : Bool :=
  let upperQuery := strToUpper query
  if !containsSub upperQuery "LIMIT" then true
  else
    match findLimitNum upperQuery.data with
    | some limitValue => BULK_THRESHOLD < limitValue
    | none => false

/-- The two execution paths of `executeSoql`. -/
inductive QueryPath where
  | paginated
  | standard
deriving Repr, DecidableEq

/-- `QueryTools.executeSoql` path selection: an explicitly supplied `useBulk`
flag decides alone; otherwise `shouldUseBulkForQuery` decides. -/
def executeSoqlPath (query : String) (useBulk : Option Bool) : QueryPath :=
  let shouldUseBulk :=
    match useBulk with
    | some b => b
    | none => shouldUseBulkForQuery query
  if shouldUseBulk then .paginated else .standard

/-- Modelled from the spec: "if it has no explicit result-limit clause, or its
limit exceeds the query bulk threshold (default 2000), use the paginated-fetch
path; otherwise use the direct single-round-trip path". An explicit result-limit
clause is read as an occurrence of LIMIT followed by whitespace and a number in
the uppercased text, and "its limit" as that number. Used only to compare the
spec wording with `shouldUseBulkForQuery`. -/
def specSelectsPaginated (query : String) : Bool :=
  match findLimitNum (strToUpper query).data with
  | none => true
  | some n => BULK_THRESHOLD < n

/-- Claim C5 counterexample: the query SELECT UNLIMITED FROM A has no explicit
result-limit clause (the spec-side predicate selects the paginated path for it),
yet the code routes it to the direct single-round-trip path, because the LIMIT
detection is a substring test and UNLIMITED contains LIMIT. -/
theorem soql_spec_divergence_cex :
    executeSoqlPath "SELECT UNLIMITED FROM A" none = QueryPath.standard ∧
    specSelectsPaginated "SELECT UNLIMITED FROM A" = true := by
  exact ⟨by decide, by decide⟩

/-- Claim C5 (amended): an explicitly supplied force-mode flag alone decides the
path; otherwise the paginated path is selected exactly when the uppercased query
text does not contain the substring LIMIT, or its first LIMIT-whitespace-number
occurrence parses to a value exceeding 2000 (so a query containing LIMIT only as
a substring, with no such number, takes the direct path). -/
theorem soql_path_rule (q : String) :
    (∀ b : Bool, executeSoqlPath q (some b) =
        if b then QueryPath.paginated else QueryPath.standard) ∧
    (executeSoqlPath q none = QueryPath.paginated ↔
      (containsSub (strToUpper q) "LIMIT" = false ∨
       ∃ n, findLimitNum (strToUpper q).data = some n ∧ BULK_THRESHOLD < n)) := by
  constructor
  · intro b; cases b <;> rfl
  · cases hc : containsSub (strToUpper q) "LIMIT" with
    | false => simp [executeSoqlPath, shouldUseBulkForQuery, hc]
    | true =>
      cases hm : findLimitNum (strToUpper q).data with
      | none => simp [executeSoqlPath, shouldUseBulkForQuery, hc, hm]
      | some n =>
        by_cases hn : BULK_THRESHOLD < n <;>
          simp [executeSoqlPath, shouldUseBulkForQuery, hc, hm, hn]

/-- Claim C5 witness: with an explicit flag the flag wins (forced standard on a
large-limit query); without it, LIMIT 2001 exceeds the threshold and paginates. -/
theorem soql_path_rule_w :
    executeSoqlPath "SELECT ID FROM ACCOUNT LIMIT 2001" (some false) =
      QueryPath.standard ∧
    executeSoqlPath "SELECT ID FROM ACCOUNT LIMIT 2001" none =
      QueryPath.paginated := by
  constructor
  · exact (soql_path_rule "SELECT ID FROM ACCOUNT LIMIT 2001").1 false
  · exact ((soql_path_rule "SELECT ID FROM ACCOUNT LIMIT 2001").2).mpr
      (Or.inr ⟨2001, by decide, by decide⟩)

/-- Claim C10: every query whose uppercased text contains the substring LIMIT
(anywhere, including inside a field name) but matches no LIMIT-number pattern is
routed, absent a forced mode, to the direct path: the detection is a substring
test, not a syntactic parse. -/
theorem limit_substring_direct (q : String)
    (hsub : containsSub (strToUpper q) "LIMIT" = true)
    (hnum : findLimitNum (strToUpper q).data = none) :
    shouldUseBulkForQuery q = false ∧
    executeSoqlPath q none = QueryPath.standard := by
  have hb : shouldUseBulkForQuery q = false := by
    simp [shouldUseBulkForQuery, hsub, hnum]
  exact ⟨hb, by simp [executeSoqlPath, hb]⟩

/-- Claim C10 witness: SELECT NAME FROM LIMITS contains LIMIT only inside the
entity name LIMITS; it takes the direct path. -/
theorem limit_substring_direct_w :
    shouldUseBulkForQuery "SELECT NAME FROM LIMITS" = false ∧
    executeSoqlPath "SELECT NAME FROM LIMITS" none = QueryPath.standard := by
  exact limit_substring_direct "SELECT NAME FROM LIMITS" (by decide) (by decide)

/-- Claim C2 witness: a cached Session (id 3) whose trial fails with
INVALID_SESSION_ID gets one forced refresh (which succeeds) and one retry; the
retry also fails, the Session is discarded and one full re-authentication installs
the fresh Session (id 4): trace is 2 trials, 1 refresh, 1 authentication. -/
theorem ensureHealthy_token_retry_w :
    ensureHealthyConnection ⟨some 3, 0⟩ 5000 (.error ⟨"INVALID_SESSION_ID"⟩)
      (.ok ()) (.error ⟨"INVALID_SESSION_ID"⟩) (.ok 4) =
      (⟨some 4, 5000⟩, .ok (), ⟨2, 1, 1⟩) := by
  exact (ensureHealthy_token_retry ⟨some 3, 0⟩ 3 rfl 5000
    ⟨"INVALID_SESSION_ID"⟩).2.2.1 ⟨"INVALID_SESSION_ID"⟩ 4 (by decide)

/-! ## MetadataCache and describeSObject (query tools module) -/

/-- The describe response content: the entity-type name, an opaque stand-in for
the remote describe payload (name, label, fields, relationships), the cache-hit
marker and the response timestamp. -/
structure DescribeData where
  sobjectType : String
  payload : Nat
  fromCache : Bool
  timestamp : Nat
deriving Repr, DecidableEq

/-- A `MetadataCache` entry: stored data, store time, time-to-live. -/
structure CacheEntry where
  data : DescribeData
  timestamp : Nat
  ttl : Nat
deriving Repr, DecidableEq

/-- `MetadataCache.DEFAULT_TTL = 60 * 60 * 1000` (1 hour). -/
def DEFAULT_TTL : Nat := 60 * 60 * 1000

/-- `MetadataCache.get` for one key: a missing entry yields null; an entry with
`now - timestamp > ttl` is deleted and yields null; otherwise its data.
Returns the lookup result and the cache contents afterwards. -/
def cacheGet (entry : Option CacheEntry) (now : Nat) :
    Option DescribeData × Option CacheEntry :=
  match entry with
  | none => (none, none)
  | some e => if now - e.timestamp > e.ttl then (none, none) else (some e.data, some e)

/-- `MetadataCache.set` for one key, with the default TTL. -/
def cacheSet (data : DescribeData) (now : Nat) : Option CacheEntry :=
  some ⟨data, now, DEFAULT_TTL⟩

/-- The outcome of one `describeSObject` call: the response, the cache entry for
the key afterwards, and whether a remote describe call was made. -/
structure DescribeStep where
  response : DescribeData
  cache : Option CacheEntry
  remoteCalled : Bool
deriving Repr, DecidableEq

/-- `QueryTools.describeSObject` for one entity type: with `useCache`, a cache hit
is returned with `fromCache := true` and a fresh timestamp spread over the cached
content, and no remote call; otherwise the remote describe runs
(`remotePayload` oracle), the response carries `fromCache := false`, and with
`useCache` it is stored with the default TTL. -/
def describeSObject (sobjectType : String) (useCache : Bool)
    (entry : Option CacheEntry) (now : Nat) (remotePayload : Nat) : DescribeStep :=
  if useCache then
    match cacheGet entry now with
    | (some cached, entryAfter) =>
        ⟨{ cached with fromCache := true, timestamp := now }, entryAfter, false⟩
    | (none, _) =>
        let responseData : DescribeData := ⟨sobjectType, remotePayload, false, now⟩
        ⟨responseData, cacheSet responseData now, true⟩
  else
    let responseData : DescribeData := ⟨sobjectType, remotePayload, false, now⟩
    ⟨responseData, entry, true⟩

/-- Claim C8: starting with no cache entry, a first describe call makes the remote
call and stores its response with the 1-hour TTL; a second call within 1 hour of
the first returns a cache-hit-marked response with the same content (entity type
and payload identical; only the marker and the response timestamp change), makes
no remote call and leaves the entry in place; a call after the TTL has elapsed
makes a fresh remote call and replaces the entry. -/
theorem describe_cache_ttl
    (T : String) (t0 t1 t2 p0 p1 p2 : Nat)
    (st0 st1 st2 : DescribeStep)
    (h0 : st0 = describeSObject T true none t0 p0)
    (h1 : st1 = describeSObject T true st0.cache t1 p1)
    (h2 : st2 = describeSObject T true st0.cache t2 p2)
    (hfresh : t1 - t0 ≤ DEFAULT_TTL)
    (hstale : DEFAULT_TTL < t2 - t0) :
    st0.remoteCalled = true ∧ st0.response = ⟨T, p0, false, t0⟩ ∧
    st0.cache = some ⟨⟨T, p0, false, t0⟩, t0, DEFAULT_TTL⟩ ∧
    st1.remoteCalled = false ∧ st1.response.fromCache = true ∧
    st1.response.sobjectType = st0.response.sobjectType ∧
    st1.response.payload = st0.response.payload ∧
    st1.cache = st0.cache ∧
    st2.remoteCalled = true ∧ st2.response = ⟨T, p2, false, t2⟩ ∧
    st2.cache = some ⟨⟨T, p2, false, t2⟩, t2, DEFAULT_TTL⟩ := by
  have e0 : describeSObject T true none t0 p0 =
      ⟨⟨T, p0, false, t0⟩, some ⟨⟨T, p0, false, t0⟩, t0, DEFAULT_TTL⟩, true⟩ := by
    simp [describeSObject, cacheGet, cacheSet]
  rw [e0] at h0
  subst h0
  rw [h1, h2]
  have hc : (some (⟨⟨T, p0, false, t0⟩, t0, DEFAULT_TTL⟩ : CacheEntry)) =
      (⟨⟨T, p0, false, t0⟩, some ⟨⟨T, p0, false, t0⟩, t0, DEFAULT_TTL⟩,
        true⟩ : DescribeStep).cache := rfl
  have e1 : describeSObject T true
      (some ⟨⟨T, p0, false, t0⟩, t0, DEFAULT_TTL⟩) t1 p1 =
      ⟨⟨T, p0, true, t1⟩, some ⟨⟨T, p0, false, t0⟩, t0, DEFAULT_TTL⟩, false⟩ := by
    simp [describeSObject, cacheGet, Nat.not_lt.mpr hfresh]
  have e2 : describeSObject T true
      (some ⟨⟨T, p0, false, t0⟩, t0, DEFAULT_TTL⟩) t2 p2 =
      ⟨⟨T, p2, false, t2⟩, some ⟨⟨T, p2, false, t2⟩, t2, DEFAULT_TTL⟩, true⟩ := by
    simp [describeSObject, cacheGet, cacheSet, hstale]
  rw [← hc, e1, e2]
  simp

/-- Claim C8 witness: first call at t=0 (payload 5), second at t=3600000
(the TTL boundary, still a hit, no remote call, same payload), third at t=3600001
(stale: fresh remote call with payload 7, entry replaced). -/
theorem describe_cache_ttl_w :
    (describeSObject "Account" true none 0 5).remoteCalled = true ∧
    (describeSObject "Account" true
      (describeSObject "Account" true none 0 5).cache 3600000 6).remoteCalled
        = false ∧
    (describeSObject "Account" true
      (describeSObject "Account" true none 0 5).cache 3600000 6).response.payload
        = 5 ∧
    (describeSObject "Account" true
      (describeSObject "Account" true none 0 5).cache 3600001 7).remoteCalled
        = true ∧
    (describeSObject "Account" true
      (describeSObject "Account" true none 0 5).cache 3600001 7).cache
        = some ⟨⟨"Account", 7, false, 3600001⟩, 3600001, DEFAULT_TTL⟩ := by
  have h := describe_cache_ttl "Account" 0 3600000 3600001 5 6 7
    (describeSObject "Account" true none 0 5)
    (describeSObject "Account" true
      (describeSObject "Account" true none 0 5).cache 3600000 6)
    (describeSObject "Account" true
      (describeSObject "Account" true none 0 5).cache 3600001 7)
    rfl rfl rfl (by decide) (by decide)
  refine ⟨h.1, h.2.2.2.1, ?_, h.2.2.2.2.2.2.2.2.1, h.2.2.2.2.2.2.2.2.2.2⟩
  have hp := h.2.2.2.2.2.2.1
  have h0p := h.2.1
  rw [hp, h0p]

/-! ## ApexTools.pollTestCompletion (src/tools/apexTools.ts) -/

/-- The status row of the `ApexTestRunResult` query; the remaining columns are
copied verbatim into the result and elided here. -/
structure TestRunRecord where
  status : String
deriving Repr, DecidableEq

/-- The terminal-status test of the poll loop:
`Completed`, `Failed` or `Aborted`. -/
def isTerminalStatus (s : String) : Bool :=
  s == "Completed" || s == "Failed" || s == "Aborted"

/-- The value `pollTestCompletion` returns on a terminal status. -/
structure TestRunSummary where
  success : Bool
  status : String
deriving Repr, DecidableEq

/-- `maxAttempts = 60` (about 5 minutes). -/
def maxPollAttempts : Nat := 60

/-- The fixed wait between polls: `setTimeout(resolve, 5000)`. -/
def pollIntervalMs : Nat := 5000

/-- The `while (attempts < maxAttempts)` loop of `pollTestCompletion`, with the
remaining attempts as fuel: each iteration queries the status by test-run id
(oracle `polls`, indexed by the attempt number; `none` models an empty result,
`totalSize = 0`); a terminal status returns the summary whose `success` is
`Status === Completed`; any other outcome increments `attempts` and polls again;
exhausting the attempts throws the timeout error. -/
def pollLoop (polls : Nat → Option TestRunRecord) :
    Nat → Nat → Except String TestRunSummary
  | 0, _ => .error "Test execution timed out"
  | fuel + 1, attempts =>
    match polls attempts with
    | some row =>
      if isTerminalStatus row.status then
        .ok ⟨row.status == "Completed", row.status⟩
      else pollLoop polls fuel (attempts + 1)
    | none => pollLoop polls fuel (attempts + 1)

/-- `ApexTools.pollTestCompletion`: run the loop from attempt 0 with 60 attempts
of fuel. -/
def pollTestCompletion (polls : Nat → Option TestRunRecord) :
    Except String TestRunSummary :=
  pollLoop polls maxPollAttempts 0

/-- Attempt `j` does not observe a terminal status. -/
def NonterminalAt (polls : Nat → Option TestRunRecord) (j : Nat) : Prop :=
  ∀ row, polls j = some row → isTerminalStatus row.status = false

theorem pollLoop_succ (polls : Nat → Option TestRunRecord) (f a : Nat) :
    pollLoop polls (f + 1) a =
      match polls a with
      | some row =>
        if isTerminalStatus row.status then
          .ok ⟨row.status == "Completed", row.status⟩
        else pollLoop polls f (a + 1)
      | none => pollLoop polls f (a + 1) := rfl

theorem pollLoop_timeout (polls : Nat → Option TestRunRecord) :
    ∀ (fuel a : Nat), (∀ j, j < fuel → NonterminalAt polls (a + j)) →
    pollLoop polls fuel a = .error "Test execution timed out" := by
  intro fuel
  induction fuel with
  | zero => intro a h; rfl
  | succ f ih =>
    intro a h
    have h0 : NonterminalAt polls a := by simpa using h 0 (Nat.succ_pos f)
    have hshift : ∀ j, j < f → NonterminalAt polls (a + 1 + j) := by
      intro j hj
      have := h (j + 1) (by omega)
      have e : a + (j + 1) = a + 1 + j := by omega
      rwa [e] at this
    rw [pollLoop_succ]
    cases hp : polls a with
    | none => exact ih (a + 1) hshift
    | some row =>
      have ht : isTerminalStatus row.status = false := h0 row hp
      show (if isTerminalStatus row.status = true then
          Except.ok ⟨row.status == "Completed", row.status⟩
        else pollLoop polls f (a + 1)) = Except.error "Test execution timed out"
      rw [ht]
      simp only [Bool.false_eq_true, if_false]
      exact ih (a + 1) hshift

theorem pollLoop_first_terminal (polls : Nat → Option TestRunRecord) :
    ∀ (k fuel a : Nat), k < fuel →
    (∀ j, j < k → NonterminalAt polls (a + j)) →
    ∀ row, polls (a + k) = some row → isTerminalStatus row.status = true →
    pollLoop polls fuel a = .ok ⟨row.status == "Completed", row.status⟩ := by
  intro k
  induction k with
  | zero =>
    intro fuel a hk hpre row hrow hterm
    obtain ⟨f, rfl⟩ : ∃ f, fuel = f + 1 := ⟨fuel - 1, by omega⟩
    rw [pollLoop_succ]
    rw [Nat.add_zero] at hrow
    rw [hrow]
    show (if isTerminalStatus row.status = true then
        Except.ok ⟨row.status == "Completed", row.status⟩
      else pollLoop polls f (a + 1)) =
      Except.ok ⟨row.status == "Completed", row.status⟩
    rw [hterm]
    simp
  | succ k ih =>
    intro fuel a hk hpre row hrow hterm
    obtain ⟨f, rfl⟩ : ∃ f, fuel = f + 1 := ⟨fuel - 1, by omega⟩
    have h0 : NonterminalAt polls a := by simpa using hpre 0 (Nat.succ_pos k)
    have hshift : ∀ j, j < k → NonterminalAt polls (a + 1 + j) := by
      intro j hj
      have := hpre (j + 1) (by omega)
      have e : a + (j + 1) = a + 1 + j := by omega
      rwa [e] at this
    have hrow2 : polls (a + 1 + k) = some row := by
      have e : a + (k + 1) = a + 1 + k := by omega
      rwa [e] at hrow
    rw [pollLoop_succ]
    cases hp : polls a with
    | none => exact ih f (a + 1) (by omega) hshift row hrow2 hterm
    | some row0 =>
      have ht : isTerminalStatus row0.status = false := h0 row0 hp
      show (if isTerminalStatus row0.status = true then
          Except.ok ⟨row0.status == "Completed", row0.status⟩
        else pollLoop polls f (a + 1)) =
        Except.ok ⟨row.status == "Completed", row.status⟩
      rw [ht]
      simp only [Bool.false_eq_true, if_false]
      exact ih f (a + 1) (by omega) hshift row hrow2 hterm

/-- Claim C6: the poll loop returns a result at the first poll that reports one of
the terminal statuses Completed, Failed or Aborted (every earlier poll reporting a
non-terminal status, or no row, continues polling), with `success` true exactly
for Completed; when no terminal status is observed within the 60 attempts, it
throws the distinct timeout error, never a remote-reported failure summary; the
attempt ceiling is 60 and the fixed wait between polls is 5000 ms. -/
theorem poll_test_completion_c6 (polls : Nat → Option TestRunRecord) :
    (∀ (k : Nat) (row : TestRunRecord), k < maxPollAttempts →
        (∀ j, j < k → NonterminalAt polls j) →
        polls k = some row → isTerminalStatus row.status = true →
        pollTestCompletion polls = .ok ⟨row.status == "Completed", row.status⟩) ∧
    ((∀ j, j < maxPollAttempts → NonterminalAt polls j) →
        pollTestCompletion polls = .error "Test execution timed out") ∧
    maxPollAttempts = 60 ∧ pollIntervalMs = 5000 := by
  refine ⟨?_, ?_, rfl, rfl⟩
  · intro k row hk hpre hrow hterm
    exact pollLoop_first_terminal polls k maxPollAttempts 0 hk
      (fun j hj => by simpa using hpre j hj) row (by simpa using hrow) hterm
  · intro h
    exact pollLoop_timeout polls maxPollAttempts 0
      (fun j hj => by simpa using h j hj)

/-- A poll oracle whose first two attempts see no result row and whose third
reports Completed. -/
def demoPolls : Nat → Option TestRunRecord :=
  fun n => if n < 2 then none else some ⟨"Completed"⟩

/-- A poll oracle stuck on a Processing status forever. -/
def demoPollsStuck : Nat → Option TestRunRecord :=
  fun _ => some ⟨"Processing"⟩

/-- Claim C6 witness: with `demoPolls` the loop returns Completed with
`success = true` at the third poll; with `demoPollsStuck` it reports the distinct
timeout error after the 60-attempt ceiling. -/
theorem poll_test_completion_c6_w :
    pollTestCompletion demoPolls = .ok ⟨true, "Completed"⟩ ∧
    pollTestCompletion demoPollsStuck = .error "Test execution timed out" := by
  constructor
  · have hpre : ∀ j, j < 2 → NonterminalAt demoPolls j := by
      intro j hj row hrow
      interval_cases j <;> simp [demoPolls] at hrow
    exact (poll_test_completion_c6 demoPolls).1 2 ⟨"Completed"⟩ (by decide)
      hpre (by decide) (by decide)
  · have hpre : ∀ j, j < maxPollAttempts → NonterminalAt demoPollsStuck j := by
      intro j hj row hrow
      injection hrow with h
      rw [← h]
      decide
    exact (poll_test_completion_c6 demoPollsStuck).2.1 hpre

/-! ## MetadataTools.deployMetadata (metadata tools module) -/

/-- A metadata component to deploy: its declared type, full name, and an opaque
stand-in for the metadata definition. -/
structure MetaComponent where
  type : String
  fullName : String
  payload : Nat
deriving Repr, DecidableEq

/-- One entry of the `results` or `errors` list built by the deployment loop. -/
structure DeployResultEntry where
  component : String
  type : String
  success : Bool
  info : String
deriving Repr, DecidableEq

/-- The per-component loop of `deployMetadata`: each component is routed by its
type to a remote deploy call (abstracted into the `outcome` oracle). A success is
appended to `results`; a failure is appended to `errors` and, when
`rollbackOnError` is set, rethrown at once as the deployment-failed error naming
that component, aborting the loop; otherwise the loop continues. -/
def deployLoop (outcome : MetaComponent → Except String String)
    (rollbackOnError : Bool) :
    List MetaComponent → List DeployResultEntry → List DeployResultEntry →
    Except String (List DeployResultEntry × List DeployResultEntry)
  | [], results, errors => .ok (results, errors)
  | comp :: rest, results, errors =>
    match outcome comp with
    | .ok info =>
        deployLoop outcome rollbackOnError rest
          (results ++ [⟨comp.fullName, comp.type, true, info⟩]) errors
    | .error msg =>
        let errors2 := errors ++ [⟨comp.fullName, comp.type, false, msg⟩]
        if rollbackOnError then
          .error ("Deployment failed for " ++ comp.fullName ++ ": " ++ msg)
        else deployLoop outcome rollbackOnError rest results errors2

/-- `MetadataTools.deployMetadata` over an already-normalized component list:
`rollbackOnError` defaults to true (`options?.rollbackOnError ?? true`), then the
loop runs with empty accumulators. -/
def deployMetadataRun (outcome : MetaComponent → Except String String)
    (components : List MetaComponent) (rollbackOnError : Option Bool) :
    Except String (List DeployResultEntry × List DeployResultEntry) :=
  deployLoop outcome (rollbackOnError.getD true) components [] []

/-- The success entries the loop should collect: one per component whose deploy
call succeeds, in order. -/
def collectSuccesses (outcome : MetaComponent → Except String String)
    (comps : List MetaComponent) : List DeployResultEntry :=
  comps.filterMap (fun comp =>
    match outcome comp with
    | .ok info => some ⟨comp.fullName, comp.type, true, info⟩
    | .error _ => none)

/-- The error entries the loop should collect: one per component whose deploy
call fails, in order. -/
def collectFailures (outcome : MetaComponent → Except String String)
    (comps : List MetaComponent) : List DeployResultEntry :=
  comps.filterMap (fun comp =>
    match outcome comp with
    | .ok _ => none
    | .error msg => some ⟨comp.fullName, comp.type, false, msg⟩)

theorem deployLoop_collect (outcome : MetaComponent → Except String String) :
    ∀ (comps : List MetaComponent) (rs es : List DeployResultEntry),
    deployLoop outcome false comps rs es =
      .ok (rs ++ collectSuccesses outcome comps,
           es ++ collectFailures outcome comps) := by
  intro comps
  induction comps with
  | nil => intro rs es; simp [deployLoop, collectSuccesses, collectFailures]
  | cons comp rest ih =>
    intro rs es
    cases ho : outcome comp with
    | ok info =>
      have step : deployLoop outcome false (comp :: rest) rs es =
          deployLoop outcome false rest
            (rs ++ [⟨comp.fullName, comp.type, true, info⟩]) es := by
        simp [deployLoop, ho]
      rw [step, ih]
      simp [collectSuccesses, collectFailures, List.filterMap_cons, ho]
    | error msg =>
      have step : deployLoop outcome false (comp :: rest) rs es =
          deployLoop outcome false rest rs
            (es ++ [⟨comp.fullName, comp.type, false, msg⟩]) := by
        simp [deployLoop, ho]
      rw [step, ih]
      simp [collectSuccesses, collectFailures, List.filterMap_cons, ho]

theorem deployLoop_rollback (outcome : MetaComponent → Except String String) :
    ∀ (pre : List MetaComponent) (comp : MetaComponent)
      (post : List MetaComponent) (rs es : List DeployResultEntry),
    (∀ c ∈ pre, ∃ info, outcome c = .ok info) →
    ∀ msg, outcome comp = .error msg →
    deployLoop outcome true (pre ++ comp :: post) rs es =
      .error ("Deployment failed for " ++ comp.fullName ++ ": " ++ msg) := by
  intro pre
  induction pre with
  | nil =>
    intro comp post rs es hpre msg hmsg
    simp [deployLoop, hmsg]
  | cons c rest ih =>
    intro comp post rs es hpre msg hmsg
    obtain ⟨info, hc⟩ := hpre c (by simp)
    have step : deployLoop outcome true ((c :: rest) ++ comp :: post) rs es =
        deployLoop outcome true (rest ++ comp :: post)
          (rs ++ [⟨c.fullName, c.type, true, info⟩]) es := by
      simp [deployLoop, hc]
    rw [step]
    exact ih comp post _ es (fun x hx => hpre x (by simp [hx])) msg hmsg

/-- Claim C7: with the stop-on-first-failure option (`rollbackOnError`) unset, the
deployment loop processes every component, collecting each per-component failure
into the error list alongside the successes; with the option set, the first
failing component (all components before it succeeding) aborts the whole
operation, surfaced immediately as the deployment-failed error naming that
component; and the option defaults to set. -/
theorem deploy_error_collection
    (outcome : MetaComponent → Except String String) :
    (∀ comps : List MetaComponent,
        deployMetadataRun outcome comps (some false) =
          .ok (collectSuccesses outcome comps, collectFailures outcome comps)) ∧
    (∀ (pre : List MetaComponent) (comp : MetaComponent)
        (post : List MetaComponent) (msg : String),
        (∀ c ∈ pre, ∃ info, outcome c = .ok info) →
        outcome comp = .error msg →
        deployMetadataRun outcome (pre ++ comp :: post) (some true) =
          .error ("Deployment failed for " ++ comp.fullName ++ ": " ++ msg)) ∧
    (∀ comps : List MetaComponent,
        deployMetadataRun outcome comps none =
          deployMetadataRun outcome comps (some true)) := by
  refine ⟨?_, ?_, fun comps => rfl⟩
  · intro comps
    simpa [deployMetadataRun] using deployLoop_collect outcome comps [] []
  · intro pre comp post msg hpre hmsg
    exact deployLoop_rollback outcome pre comp post [] [] hpre msg hmsg

/-- A deploy-outcome oracle where only component B fails. -/
def demoDeployOutcome : MetaComponent → Except String String :=
  fun comp => if comp.fullName == "B" then .error "boom" else .ok "deployed"

/-- Claim C7 witness: deploying A, B, C where only B fails: without
stop-on-first-failure the result collects A and C as successes and B in the error
list; with it (the default) the whole operation aborts with the error naming B. -/
theorem deploy_error_collection_w :
    deployMetadataRun demoDeployOutcome
      [⟨"ApexClass", "A", 0⟩, ⟨"ApexClass", "B", 0⟩, ⟨"ApexClass", "C", 0⟩]
      (some false) =
      .ok ([⟨"A", "ApexClass", true, "deployed"⟩,
            ⟨"C", "ApexClass", true, "deployed"⟩],
           [⟨"B", "ApexClass", false, "boom"⟩]) ∧
    deployMetadataRun demoDeployOutcome
      [⟨"ApexClass", "A", 0⟩, ⟨"ApexClass", "B", 0⟩, ⟨"ApexClass", "C", 0⟩]
      none =
      .error "Deployment failed for B: boom" := by
  constructor
  · have h := (deploy_error_collection demoDeployOutcome).1
      [⟨"ApexClass", "A", 0⟩, ⟨"ApexClass", "B", 0⟩, ⟨"ApexClass", "C", 0⟩]
    rw [h]
    rfl
  · have hd := (deploy_error_collection demoDeployOutcome).2.2
      [⟨"ApexClass", "A", 0⟩, ⟨"ApexClass", "B", 0⟩, ⟨"ApexClass", "C", 0⟩]
    rw [hd]
    exact (deploy_error_collection demoDeployOutcome).2.1
      [⟨"ApexClass", "A", 0⟩] ⟨"ApexClass", "B", 0⟩ [⟨"ApexClass", "C", 0⟩]
      "boom"
      (by intro c hc; simp at hc; subst hc; exact ⟨"deployed", rfl⟩) rfl

/-! ## AuthManager and OAuth2 configuration (src/auth, src/config) -/

/-- The OAuth2-relevant environment variables
(src/config/environment.ts `config`): each is the raw string or absent. -/
structure EnvConfig where
  clientId : Option String
  clientSecret : Option String
  refreshToken : Option String
  instanceUrl : Option String
deriving Repr, DecidableEq

/-- JavaScript truthiness of an environment value: absent or empty is falsy. -/
def envTruthy : Option String → Bool
  | none => false
  | some s => !s.isEmpty

/-- `OAuth2Strategy.canAuthenticate`:
`!!(config.clientId && config.refreshToken && config.instanceUrl)`. -/
def canAuthenticate (cfg : EnvConfig) : Bool :=
  envTruthy cfg.clientId && envTruthy cfg.refreshToken && envTruthy cfg.instanceUrl

/-- An error as built by `createAuthenticationError` (auth/types.ts): its `name`
is always the string AuthenticationError, plus a message and the strategy tag. -/
structure AppError where
  name : String
  message : String
  strategy : Option String
deriving Repr, DecidableEq

/-- The fixed message `AuthManager.authenticate` throws when the strategy cannot
authenticate; it names all three required variables. -/
def authManagerNotConfiguredMsg : String :=
  "OAuth2 authentication not configured. Please ensure SF_CLIENT_ID, SF_REFRESH_TOKEN, and SF_INSTANCE_URL environment variables are set. See README.md for setup instructions."

/-- `AuthManager.authenticate` (src/auth/AuthManager.ts): if the single OAuth2
strategy cannot authenticate, throw the AuthenticationError above before any
remote work; otherwise delegate to the strategy (its remote behaviour is the
`remoteAuth` oracle). Returns the outcome and the number of remote
authentication attempts made. -/
def authManagerAuthenticate (cfg : EnvConfig)
    (remoteAuth : Except AppError Nat) : Except AppError Nat × Nat :=
  if !canAuthenticate cfg then
    (.error ⟨"AuthenticationError", authManagerNotConfiguredMsg,
      some "AuthManager"⟩, 0)
  else
    (remoteAuth, 1)

/-- The missing-required-variable computation of `validateConfig`
(src/config/environment.ts) and of `OAuth2Strategy.authenticate`: the names of
the required variables whose values are not truthy, in order. -/
def missingOAuthVars (cfg : EnvConfig) : List String :=
  (if !envTruthy cfg.clientId then ["SF_CLIENT_ID"] else []) ++
  (if !envTruthy cfg.refreshToken then ["SF_REFRESH_TOKEN"] else []) ++
  (if !envTruthy cfg.instanceUrl then ["SF_INSTANCE_URL"] else [])

/-- Claim C9 counterexample: with every credential variable absent (zero eligible
strategies), `AuthManager.authenticate` does fail immediately — but the error it
produces carries the name AuthenticationError, not ConfigurationError; no
ConfigurationError type exists in the code. -/
theorem auth_config_error_cex :
    (authManagerAuthenticate ⟨none, none, none, none⟩ (.ok 1)) =
      (.error ⟨"AuthenticationError", authManagerNotConfiguredMsg,
        some "AuthManager"⟩, 0) ∧
    "AuthenticationError" ≠ "ConfigurationError" := by
  exact ⟨rfl, by decide⟩

/-- Claim C9 (amended): for every configuration in which the OAuth2 strategy is
not eligible (`canAuthenticate` is false, i.e. zero eligible strategy variants),
authentication fails immediately with zero remote authentication attempts,
producing the AuthenticationError (the code's configuration-failure variant)
whose fixed message names all three required environment variables — in
particular every missing one. -/
theorem auth_zero_eligible (cfg : EnvConfig) (remoteAuth : Except AppError Nat)
    (h : canAuthenticate cfg = false) :
    (authManagerAuthenticate cfg remoteAuth).2 = 0 ∧
    (authManagerAuthenticate cfg remoteAuth).1 =
      .error ⟨"AuthenticationError", authManagerNotConfiguredMsg,
        some "AuthManager"⟩ ∧
    (∀ v ∈ missingOAuthVars cfg, containsSub authManagerNotConfiguredMsg v = true) := by
  refine ⟨by simp [authManagerAuthenticate, h],
    by simp [authManagerAuthenticate, h], ?_⟩
  intro v hv
  have hv3 : v = "SF_CLIENT_ID" ∨ v = "SF_REFRESH_TOKEN" ∨ v = "SF_INSTANCE_URL" := by
    simp only [missingOAuthVars, List.mem_append] at hv
    rcases hv with (h1 | h2) | h3
    · split at h1 <;> simp at h1 <;> simp [h1]
    · split at h2 <;> simp at h2 <;> simp [h2]
    · split at h3 <;> simp at h3 <;> simp [h3]
  rcases hv3 with rfl | rfl | rfl <;> decide

/-- Claim C9 witness: with all variables absent, authentication makes zero remote
attempts, yields the AuthenticationError with the fixed configuration message,
and each of the three (missing) variable names occurs in that message. -/
theorem auth_zero_eligible_w :
    (authManagerAuthenticate ⟨none, none, none, none⟩ (.ok 5)).2 = 0 ∧
    containsSub authManagerNotConfiguredMsg "SF_CLIENT_ID" = true ∧
    containsSub authManagerNotConfiguredMsg "SF_REFRESH_TOKEN" = true ∧
    containsSub authManagerNotConfiguredMsg "SF_INSTANCE_URL" = true := by
  have h := auth_zero_eligible ⟨none, none, none, none⟩ (.ok 5) rfl
  exact ⟨h.1, h.2.2 "SF_CLIENT_ID" (by decide), h.2.2 "SF_REFRESH_TOKEN" (by decide),
    h.2.2 "SF_INSTANCE_URL" (by decide)⟩
